import Mathlib

/-!
Verification of the claude-code-orchestra hooks and helper scripts.

The repository ships two source files (`scripts/orchestra-doctor.py` and
`tests/test_hooks.py`); the hook implementations themselves (the CLI Call
Logger `log-cli-tools.py` and the Intent Router `agent-router.py`) are
exercised only through the tests, so they are modelled here from the
specification text (section 4.1, 4.2, 6 and 7 of the spec).  The doctor
script is embedded directly from its source.

Conventions of the embedding:
* file-system paths are lists of components (an absolute resolved path),
* the JSONL log file is a list of parsed JSON records (one per line),
* free text that gets redacted is handled at whitespace-token granularity
  (the spec fixes the pattern list only by kind, not by exact regex).
-/

namespace Orchestra

/-! ## A small JSON value model (for log lines, mirroring json.dumps/loads) -/

/-- A JSON value, as produced by one `json.dumps` log line and re-read by
`json.loads`: the round trip of the Python json module is exact on these
constructors, so serialisation plus re-parsing is modelled as the identity
on this type. -/
inductive Json where
  | null : Json
  | bool (b : Bool) : Json
  | int (n : Int) : Json
  | str (s : String) : Json
  | arr (xs : List Json) : Json
  | obj (fields : List (String × Json)) : Json
deriving Repr

/-- Look a key up in a JSON object (first binding wins, as in a parsed
Python dict with distinct keys). -/
def jsonLookup (j : Json) (key : String) : Option Json :=
  match j with
  | .obj fields => fields.lookup key
  | _ => none

/-- Read a JSON value as a string. -/
def jsonAsStr : Json → Option String
  | .str s => some s
  | _ => none

/-- Read a JSON value as a boolean. -/
def jsonAsBool : Json → Option Bool
  | .bool b => some b
  | _ => none

/-- Read a JSON value as an integer. -/
def jsonAsInt : Json → Option Int
  | .int n => some n
  | _ => none

/-! ## String helpers

Character-list implementations of splitting, lower-casing, prefix and
substring tests (the counterparts of the Python `str` operations used by
the hooks), written by structural recursion so concrete instances
evaluate. -/

/-- Split a character list at every character satisfying the predicate
(Python `re.split` on a character class: separators are dropped, empty
fragments are kept). -/
def splitChars (p : Char → Bool) : List Char → List (List Char)
  | [] => [[]]
  | c :: rest =>
    match splitChars p rest with
    | [] => [[c]]
    | s :: ss => if p c then [] :: s :: ss else (c :: s) :: ss

/-- Lower-case a string code point by code point (Python `str.lower` on
the ASCII range; ordinal lowering, as the spec requires). -/
def lowerStr (s : String) : String :=
  ⟨s.data.map Char.toLower⟩

/-- Python `str.startswith`. -/
def startsWithStr (s pre : String) : Bool :=
  pre.data.isPrefixOf s.data

/-- Whether a string contains a given character (Python `in` on one
character). -/
def containsChar (s : String) (c : Char) : Bool :=
  s.data.contains c

/-! ## Redaction (spec 4.2 "Redaction")

Modelled from the spec: `log-cli-tools.py` is absent from the sources, and
the spec fixes the redaction pattern list only by kind ("API-key prefixes,
access-key-ID shapes, base64-looking bearer tokens, JWT-looking strings,
email addresses").  Text is handled at whitespace-token granularity and a
token is secret-shaped when it matches one of those kinds. -/

/-- The fixed redaction marker that replaces every secret-shaped match. -/
def MARKER : String := "[REDACTED]"

/-- Modelled from the spec: a token matches one of the fixed secret-shaped
patterns (API-key prefix, AWS-style access-key id, JWT-looking string,
email address). -/
def secretShaped (t : String) : Bool :=
  (startsWithStr t "sk-" && decide (20 ≤ t.length)) ||
  startsWithStr t "AKIA" ||
  startsWithStr t "eyJ" ||
  (containsChar t (Char.ofNat 64) && containsChar t (Char.ofNat 46))

/-- Modelled from the spec: scan the tokens of a text against the fixed
pattern list and replace each match with the fixed redaction marker. -/
def redactTokens (toks : List String) : List String :=
  toks.map (fun t => if secretShaped t then MARKER else t)

/-- Fixed character budget for stored output (spec 4.2 "Truncation"). -/
def MAX_OUTPUT_TOKENS : Nat := 500

/-- Marker appended when a stored text was truncated. -/
def TRUNC_MARKER : String := "[truncated]"

/-- Modelled from the spec: truncate an over-budget text after redaction,
appending a truncation marker. -/
def truncTokens (toks : List String) : List String :=
  if toks.length ≤ MAX_OUTPUT_TOKENS then toks
  else toks.take MAX_OUTPUT_TOKENS ++ [TRUNC_MARKER]

/-- Modelled from the spec: the stored form of a free-text field — redact
first, then truncate. -/
def storeText (toks : List String) : List String :=
  truncTokens (redactTokens toks)

/-! ## Tool detection (spec 4.2 "Tool detection") -/

/-- Modelled from the spec: split a command line into segments on the
command separators `;`, `&&`, `||`, `|` (character-class split; the empty
fragments between doubled separator characters lead no token). -/
def commandSegments (cmd : String) : List String :=
  (splitChars
    (fun c => c == Char.ofNat 59 || c == Char.ofNat 124 || c == Char.ofNat 38)
    cmd.data).map fun l => ⟨l⟩

/-- The whitespace-separated words of one command segment. -/
def segmentWords (seg : String) : List String :=
  ((splitChars (fun c => c == Char.ofNat 32) seg.data).filter
    (fun w => !w.isEmpty)).map fun l => ⟨l⟩

/-- The bare leading token of one command segment (first whitespace-separated
word), lower-cased. -/
def segmentLeader (seg : String) : Option String :=
  ((segmentWords seg).head?).map lowerStr

/-- Modelled from the spec: detect which of the two known external tools a
shell command invokes — a segment-leading bare token equal to the tool
name, case-insensitively, with codex taking fixed priority over gemini. -/
def detectTool (cmd : String) : Option String :=
  let leaders := (commandSegments cmd).filterMap segmentLeader
  if leaders.contains "codex" then some "codex"
  else if leaders.contains "gemini" then some "gemini"
  else none

/-! ## Log entries (spec section 3 "Log Entry", 4.2 "Extraction") -/

/-- Default model identifier substituted for codex when none is extracted. -/
def DEFAULT_CODEX_MODEL : String := "gpt-5-codex"

/-- Fixed model identifier always used for gemini (no extraction). -/
def DEFAULT_GEMINI_MODEL : String := "gemini-2.5-pro"

/-- Modelled from the spec: pull the double-quoted prompt argument out of
the command line (the first double-quoted span). -/
def extractQuoted (cmd : String) : Option String :=
  match cmd.splitOn "\"" with
  | _ :: q :: _ => some q
  | _ => none

/-- Modelled from the spec: extract a named model argument for codex. -/
def extractModel (cmd : String) : Option String :=
  go (cmd.splitOn " ")
where
  go : List String → Option String
    | "--model" :: v :: _ => some v
    | "-m" :: v :: _ => some v
    | _ :: rest => go rest
    | [] => none

/-- One structured record per external CLI invocation (spec section 3):
every field is present even when the process produced no output. -/
structure LogEntry where
  timestamp : String
  tool : String
  model : String
  prompt : Option (List String)
  stdout : List String
  stderr : List String
  response : List String
  success : Bool
  has_output : Bool
  exit_code : Int
deriving Repr, DecidableEq

/-- Modelled from the spec: build the Log Entry for a detected tool from the
completed-command record — extract prompt/model, redact and truncate the
texts, set `success` from the exit code and `response` to stdout when
present, else stderr. -/
def mkEntry (ts tool cmd : String) (out err : List String) (code : Int) :
    LogEntry :=
  let sOut := storeText out
  let sErr := storeText err
  { timestamp := ts
    tool := tool
    model :=
      if tool = "codex" then (extractModel cmd).getD DEFAULT_CODEX_MODEL
      else DEFAULT_GEMINI_MODEL
    prompt := (extractQuoted cmd).map (fun s => storeText (s.splitOn " "))
    stdout := sOut
    stderr := sErr
    response := if sOut.isEmpty then sErr else sOut
    success := code == 0
    has_output := !(sOut.isEmpty && sErr.isEmpty)
    exit_code := code }

/-- Serialise a Log Entry to the JSON record written as one log line. -/
def entryToJson (e : LogEntry) : Json :=
  .obj
    [("timestamp", .str e.timestamp),
     ("tool", .str e.tool),
     ("model", .str e.model),
     ("prompt",
       match e.prompt with
       | none => .null
       | some p => .arr (p.map .str)),
     ("stdout", .arr (e.stdout.map .str)),
     ("stderr", .arr (e.stderr.map .str)),
     ("response", .arr (e.response.map .str)),
     ("success", .bool e.success),
     ("has_output", .bool e.has_output),
     ("exit_code", .int e.exit_code)]

/-- Re-parse one log line the way the tests do: read the tool identifier,
success flag and exit code back out of the JSON record. -/
def parseLogLine (j : Json) : Option (String × Bool × Int) :=
  ((jsonLookup j "tool").bind jsonAsStr).bind fun t =>
    ((jsonLookup j "success").bind jsonAsBool).bind fun s =>
      ((jsonLookup j "exit_code").bind jsonAsInt).bind fun c =>
        some (t, s, c)

/-! ## Persistence and rotation (spec 4.2 "Persistence", section 3) -/

/-- The fixed rotation threshold: 5 MiB. -/
def THRESHOLD : Nat := 5 * 1024 * 1024

/-- Approximate byte size of one serialised JSON log line (the model of the
file size the rotation check reads). -/
def lineSize : Json → Nat
  | .null => 4
  | .bool _ => 5
  | .int _ => 12
  | .str s => s.length + 2
  | .arr xs => 2 + (xs.attach.map (fun x => lineSize x.1)).sum
  | .obj fs => 2 + (fs.attach.map (fun kv => kv.1.1.length + lineSize kv.1.2)).sum
termination_by j => sizeOf j
decreasing_by
  · have h := List.sizeOf_lt_of_mem x.2
    simp only [Json.arr.sizeOf_spec]
    omega
  · obtain ⟨⟨k, v⟩, hm⟩ := kv
    have h := List.sizeOf_lt_of_mem hm
    simp only [Prod.mk.sizeOf_spec] at h
    simp only [Json.obj.sizeOf_spec]
    omega

/-- Byte size of the current log file: one line per record plus a newline. -/
def logSize (lines : List Json) : Nat :=
  (lines.map (fun l => lineSize l + 1)).sum

/-- The state of the log directory: the current JSONL file and the single
rotated backup generation (the `Option` is the invariant that at most one
backup generation is ever kept). -/
structure LogFS where
  current : List Json
  backup : Option (List Json)
deriving Repr

/-- Modelled from the spec: append one JSON line; before appending, if the
file size meets or exceeds the threshold, rotate — drop any existing
backup, move the current file to the backup name, start a fresh file. -/
def appendLine (fs : LogFS) (j : Json) : LogFS :=
  if THRESHOLD ≤ logSize fs.current then
    { current := [j], backup := some fs.current }
  else
    { current := fs.current ++ [j], backup := fs.backup }

/-- Modelled from the spec: the Logger's action on a completed shell
command — detect the tool; when one of the two known tools leads a
segment, build the Log Entry and append it, otherwise leave the log
untouched. -/
def processCommand (ts cmd : String) (out err : List String) (code : Int)
    (fs : LogFS) : LogFS :=
  match detectTool cmd with
  | none => fs
  | some tool => appendLine fs (entryToJson (mkEntry ts tool cmd out err code))

/-! ## The Intent Router (spec 4.1)

Modelled from the spec: `agent-router.py` is absent from the sources.  The
trigger tables are bilingual literal substring lists; the concrete entries
below are the canary triggers the spec and the tests name ("実装して" for
Category A, "調べて"/"ライブラリ" for Category B, "ライブラリの設計"
matching both).  The minimum-length guard is the tunable constant; the
spec's open question records revisions with 10 and with 2 — this model
uses 2.  Category A is scanned before Category B (first-category-wins
resolution, one of the two documented revisions). -/

/-- Whether the second string occurs as a contiguous substring of a
character list. -/
def hasSublist (needle : List Char) : List Char → Bool
  | [] => needle.isEmpty
  | c :: rest => needle.isPrefixOf (c :: rest) || hasSublist needle rest

/-- Substring containment on strings (plain substrings, not word-bounded
tokens or regular expressions). -/
def containsSub (hay needle : String) : Bool :=
  hasSublist needle.data hay.data

/-- The minimum-length guard threshold (a tunable constant). -/
def MIN_PROMPT_LENGTH : Nat := 2

/-- Modelled from the spec: Category A (Codex, implementation-intent)
trigger substrings, in table-declaration order. -/
def categoryATriggers : List String :=
  ["実装して", "設計", "リファクタリング", "implement", "refactor"]

/-- Modelled from the spec: Category B (Gemini, research-intent) trigger
substrings, in table-declaration order. -/
def categoryBTriggers : List String :=
  ["調べて", "ライブラリ", "最新", "research", "investigate"]

/-- Modelled from the spec: classify a prompt — skip entirely when it is
shorter than the guard threshold, otherwise lower-case it and return the
first matching trigger of Category A, else of Category B, with the
category name. -/
def classify (prompt : String) : Option (String × String) :=
  if prompt.length < MIN_PROMPT_LENGTH then none
  else
    let low := lowerStr prompt
    match categoryATriggers.find? (fun t => containsSub low t) with
    | some t => some ("Codex", t)
    | none =>
      match categoryBTriggers.find? (fun t => containsSub low t) with
      | some t => some ("Gemini", t)
      | none => none

/-- Modelled from the spec: the Router's structured suggestion payload —
emitted only on a match, naming the matched category and trigger. -/
def routerOutput (prompt : String) : Option String :=
  (classify prompt).map fun ct =>
    "Consider delegating to " ++ ct.1 ++ " (matched trigger: " ++ ct.2 ++ ")"

/-! ## Hook entry points (spec sections 6 and 7)

Modelled from the spec: each hook reads one event payload from stdin and
must exit with status 0 whatever it receives; missing or malformed JSON
and payloads of the wrong event type are treated as "no applicable
event". -/

/-- The payload a hook receives on stdin: missing/malformed JSON, the
empty object, a prompt-submission event, or a completed-shell-command
event. -/
inductive HookInput where
  | malformed : HookInput
  | emptyObj : HookInput
  | promptEvent (prompt : String) : HookInput
  | bashEvent (ts cmd : String) (out err : List String) (code : Int) : HookInput

/-- Modelled from the spec: one Router invocation — exit status and
optional stdout payload.  Internal errors are converted to a silent
success exit, so the status is 0 on every input. -/
def runRouter : HookInput → Nat × Option String
  | .promptEvent p => (0, routerOutput p)
  | _ => (0, none)

/-- Modelled from the spec: one Logger invocation — exit status, optional
one-line notification (only on failure unless the always-notify flag is
set), and the resulting log state.  The status is 0 on every input. -/
def runLogger (alwaysNotify : Bool) (inp : HookInput) (fs : LogFS) :
    Nat × Option String × LogFS :=
  match inp with
  | .bashEvent ts cmd out err code =>
    match detectTool cmd with
    | none => (0, none, fs)
    | some tool =>
      (0,
        if alwaysNotify || !(code == 0) then some "cli call logged" else none,
        appendLine fs (entryToJson (mkEntry ts tool cmd out err code)))
  | _ => (0, none, fs)

/-! ## The doctor script (embedded from `scripts/orchestra-doctor.py`) -/

/-- A resolved absolute path, as its list of components from the
filesystem root (`[]` is the root directory). -/
abbrev FsPath := List String

/-- The ancestor chain `[current, *current.parents]` that
`find_project_root` walks: the resolved start, then each parent up to the
root. -/
def ancestorChain (p : FsPath) : List FsPath :=
  (List.range (p.length + 1)).map fun k => p.take (p.length - k)

/-- `find_project_root` from `orchestra-doctor.py`: walk up from the
resolved start, returning the first directory (start preferred, then
successively higher ancestors) in which `CLAUDE.md` exists; `exists`
abstracts the filesystem as a predicate on paths. -/
def find_project_root (exists_ : FsPath → Bool) (start : FsPath) :
    Option FsPath :=
  (ancestorChain start).find? fun parent => exists_ (parent ++ ["CLAUDE.md"])

/-- What the doctor finds at `.claude/settings.json`: the file is absent,
it exists but reading raises an `OSError`, or it has readable contents. -/
inductive SettingsFile where
  | absent : SettingsFile
  | unreadable : SettingsFile
  | content (s : String) : SettingsFile

/-- `check_settings_json` from `orchestra-doctor.py`: a missing optional
file passes; otherwise the result is whether the contents parse as JSON
(`parsesAsJson` abstracts `json.loads` succeeding), with both
`JSONDecodeError` and `OSError` caught and turned into `false`. -/
def check_settings_json (parsesAsJson : String → Bool) :
    SettingsFile → Bool
  | .absent => true
  | .unreadable => false
  | .content s => parsesAsJson s

/-- The six tools `main` checks availability of. -/
def DOCTOR_TOOLS : List String :=
  ["python", "uv", "ruff", "ty", "codex", "gemini"]

/-- The eight directories `main` checks for. -/
def DOCTOR_DIRS : List String :=
  [".claude", ".codex", ".gemini", ".claude/hooks", ".claude/skills",
   ".claude/rules", ".claude/docs", ".claude/docs/research"]

/-- The environment one doctor run observes, check by check:
`which` is `shutil.which` succeeding per tool name, `isDir` is
`(root / rel).is_dir()` per relative directory, `settings` is the
`.claude/settings.json` state, `parsesAsJson` abstracts `json.loads`,
`hookFailures` is the list `check_hooks_compile` returns, and `symlink`
is `check_symlink`'s three-valued result (absent / broken-or-valid). -/
structure DoctorWorld where
  which : String → Bool
  isDir : String → Bool
  settings : SettingsFile
  parsesAsJson : String → Bool
  hookFailures : List String
  symlink : Option Bool

/-- The `all_ok` accumulator of `main`, after all check sections ran: a
tool miss, a missing directory, invalid settings, a compile failure, or a
broken symlink (`some false`) each clear it; an absent symlink
(`none`) does not. -/
def doctorAllOk (w : DoctorWorld) : Bool :=
  DOCTOR_TOOLS.all w.which &&
  DOCTOR_DIRS.all w.isDir &&
  check_settings_json w.parsesAsJson w.settings &&
  w.hookFailures.isEmpty &&
  w.symlink != some false

/-- `main` from `orchestra-doctor.py`, as the exit status it returns: 1
when no project root is found, otherwise 0 when every check passed and 1
when some check failed (the printing is omitted; `root` is the
`find_project_root` result). -/
def doctorMain (root : Option FsPath) (w : DoctorWorld) : Nat :=
  match root with
  | none => 1
  | some _ => if doctorAllOk w then 0 else 1

/-! ## Shared lemmas -/

/-- The codex command line of the spec scenario. -/
def CODEX_CMD : String :=
  "codex exec --skip-git-repo-check --sandbox read-only --full-auto \"test question\""

lemma secretShaped_marker : secretShaped MARKER = false := by decide

lemma secretShaped_trunc_marker : secretShaped TRUNC_MARKER = false := by decide

lemma mem_redactTokens {toks : List String} {t : String}
    (h : t ∈ redactTokens toks) : secretShaped t = false := by
  rcases List.mem_map.mp h with ⟨x, _, rfl⟩
  cases hx : secretShaped x with
  | true => simpa [hx] using secretShaped_marker
  | false => simp [hx]

lemma mem_storeText {toks : List String} {t : String}
    (h : t ∈ storeText toks) : secretShaped t = false := by
  unfold storeText truncTokens at h
  by_cases hl : (redactTokens toks).length ≤ MAX_OUTPUT_TOKENS
  · rw [if_pos hl] at h
    exact mem_redactTokens h
  · rw [if_neg hl] at h
    rcases List.mem_append.mp h with h1 | h2
    · exact mem_redactTokens (List.mem_of_mem_take h1)
    · rw [List.mem_singleton.mp h2]
      exact secretShaped_trunc_marker

lemma redactTokens_getD (toks : List String) (i : Nat)
    (h : secretShaped (toks.getD i "") = true) :
    (redactTokens toks).getD i "" = MARKER := by
  induction toks generalizing i with
  | nil =>
    rw [show (([] : List String).getD i "") = "" from by simp] at h
    exact absurd h (by decide)
  | cons x xs ih =>
    cases i with
    | zero =>
      rw [List.getD_cons_zero] at h
      simp [redactTokens, List.getD_cons_zero, h]
    | succ n =>
      rw [List.getD_cons_succ] at h
      simpa [redactTokens, List.getD_cons_succ] using ih n h

/-! ## The claims -/

/-- C1: the CLI Call Logger appends a Log Entry if and only if the
completed shell command invokes codex or gemini as a segment-leading
token: the spec's codex command is detected and logged with tool
`"codex"`, while `echo hello` is not detected and leaves the log
untouched. -/
theorem cli_logger_appends_iff_known_tool :
    ∀ (ts : String) (out err : List String) (code : Int) (fs : LogFS),
      detectTool CODEX_CMD = some "codex" ∧
      detectTool "echo hello" = none ∧
      (processCommand ts CODEX_CMD out err 0 ⟨[], none⟩).current
        = [entryToJson (mkEntry ts "codex" CODEX_CMD out err 0)] ∧
      (mkEntry ts "codex" CODEX_CMD out err 0).tool = "codex" ∧
      processCommand ts "echo hello" out err code fs = fs := by
  intro ts out err code fs
  have hc : detectTool CODEX_CMD = some "codex" := by decide
  have he : detectTool "echo hello" = none := by decide
  refine ⟨hc, he, ?_, rfl, ?_⟩
  · simp [processCommand, hc, appendLine, logSize, THRESHOLD]
  · simp [processCommand, he]

/-- C2: in every Log Entry the Logger writes, the success flag is true if
and only if the recorded exit code is zero, and the stored exit code is
the completed command's exit code. -/
theorem log_entry_success_iff_exit_zero :
    ∀ (ts tool cmd : String) (out err : List String) (code : Int),
      ((mkEntry ts tool cmd out err code).success = true ↔ code = 0) ∧
      (mkEntry ts tool cmd out err code).exit_code = code := by
  intro ts tool cmd out err code
  exact ⟨by simp [mkEntry], rfl⟩

/-- C3: when the log file's size is at least the 5 MiB threshold, the
next append rotates — the resulting current file holds exactly the one
new line and the backup holds exactly the prior content (any older
backup generation is dropped, so at most one generation is kept). -/
theorem log_rotation_at_threshold :
    ∀ (fs : LogFS) (j : Json), THRESHOLD ≤ logSize fs.current →
      appendLine fs j = { current := [j], backup := some fs.current } := by
  intro fs j h
  simp [appendLine, h]

/-- A log line of exactly threshold-many characters, used to exhibit an
oversized log file. -/
def bigLogLine : Json := .str ⟨List.replicate THRESHOLD (Char.ofNat 97)⟩

/-- Witness for C3: a concrete oversized log rotates on append. -/
theorem log_rotation_at_threshold_witness :
    THRESHOLD ≤ logSize [bigLogLine] ∧
    appendLine ⟨[bigLogLine], none⟩ .null
      = { current := [.null], backup := some [bigLogLine] } := by
  have h : THRESHOLD ≤ logSize [bigLogLine] := by
    rw [logSize, List.map_cons, List.map_nil, List.sum_cons, List.sum_nil,
      bigLogLine]
    rw [show lineSize (.str ⟨List.replicate THRESHOLD (Char.ofNat 97)⟩)
        = (⟨List.replicate THRESHOLD (Char.ofNat 97)⟩ : String).length + 2
      from by simp only [lineSize]]
    rw [String.length_mk, List.length_replicate]
    omega
  exact ⟨h, log_rotation_at_threshold ⟨[bigLogLine], none⟩ .null h⟩

/-- C4: every text field is stored in redacted (and then truncated) form:
no stored token is secret-shaped, the Log Entry's stdout/stderr fields
are exactly the stored forms, and each secret-shaped input token is
replaced, at its position, by the fixed redaction marker. -/
theorem redaction_strips_secret_shaped_tokens :
    ∀ (toks : List String) (ts tool cmd : String) (out err : List String)
      (code : Int),
      (∀ t ∈ storeText toks, secretShaped t = false) ∧
      (mkEntry ts tool cmd out err code).stdout = storeText out ∧
      (mkEntry ts tool cmd out err code).stderr = storeText err ∧
      (∀ i : Nat, secretShaped (toks.getD i "") = true →
        (redactTokens toks).getD i "" = MARKER) := by
  intro toks ts tool cmd out err code
  exact ⟨fun t ht => mem_storeText ht, rfl, rfl,
    fun i hi => redactTokens_getD toks i hi⟩

/-- Witness for C4: a concrete AWS-style access key id is replaced by the
marker and the stored field is not secret-shaped. -/
theorem redaction_strips_secret_shaped_tokens_witness :
    secretShaped ((storeText ["AKIA1234EXAMPLE", "ok"]).getD 0 "") = false ∧
    (redactTokens ["AKIA1234EXAMPLE", "ok"]).getD 0 "" = MARKER :=
  ⟨(redaction_strips_secret_shaped_tokens ["AKIA1234EXAMPLE", "ok"]
      "" "" "" [] [] 0).1 _ (by decide),
   (redaction_strips_secret_shaped_tokens ["AKIA1234EXAMPLE", "ok"]
      "" "" "" [] [] 0).2.2.2 0 (by decide)⟩

/-- C5: round-trip — for every qualifying shell-command record, appending
its Log Entry and re-parsing the last line of the file yields the same
tool identifier, success flag and exit code as the appended entry. -/
theorem log_append_roundtrip :
    ∀ (ts cmd tool : String) (out err : List String) (code : Int)
      (fs : LogFS),
      detectTool cmd = some tool →
      (processCommand ts cmd out err code fs).current.getLast?
          = some (entryToJson (mkEntry ts tool cmd out err code)) ∧
      parseLogLine (entryToJson (mkEntry ts tool cmd out err code))
        = some ((mkEntry ts tool cmd out err code).tool,
                (mkEntry ts tool cmd out err code).success,
                (mkEntry ts tool cmd out err code).exit_code) := by
  intro ts cmd tool out err code fs h
  constructor
  · simp only [processCommand, h]
    by_cases hr : THRESHOLD ≤ logSize fs.current
    · simp [appendLine, hr]
    · simp [appendLine, hr, List.getLast?_concat]
  · rfl

/-- Witness for C5: the spec's codex scenario appends its entry as the
last log line. -/
theorem log_append_roundtrip_witness :
    (processCommand "2026-01-01T00:00:00Z" CODEX_CMD
        ["codex", "says", "hello"] ["some", "warning"] 0
        ⟨[], none⟩).current.getLast?
      = some (entryToJson (mkEntry "2026-01-01T00:00:00Z" "codex" CODEX_CMD
          ["codex", "says", "hello"] ["some", "warning"] 0)) :=
  (log_append_roundtrip "2026-01-01T00:00:00Z" CODEX_CMD "codex"
    ["codex", "says", "hello"] ["some", "warning"] 0 ⟨[], none⟩
    (by decide)).1

/-- C6 counterexample: a prompt containing a trigger makes the Router
exit 0 yet emit output, so "every input payload produces no output" is
false as stated. -/
theorem router_output_on_trigger_counterexample :
    (runRouter (.promptEvent "この関数を実装して")).1 = 0 ∧
    ((runRouter (.promptEvent "この関数を実装して")).2).isSome = true := by
  decide

/-- C6 (amended): every payload makes both hooks exit with status 0 (no
internal exception propagates), and on missing/malformed JSON or the
empty object they produce no output and leave the log untouched. -/
theorem hooks_exit_zero_and_silent_on_malformed :
    ∀ (inp : HookInput) (b : Bool) (fs : LogFS),
      (runRouter inp).1 = 0 ∧
      (runLogger b inp fs).1 = 0 ∧
      runRouter .malformed = (0, none) ∧
      runRouter .emptyObj = (0, none) ∧
      runLogger b .malformed fs = (0, none, fs) ∧
      runLogger b .emptyObj fs = (0, none, fs) := by
  intro inp b fs
  refine ⟨?_, ?_, rfl, rfl, rfl, rfl⟩
  · cases inp <;> rfl
  · cases inp with
    | bashEvent ts cmd out err code =>
      cases h : detectTool cmd <;> simp [runLogger, h]
    | malformed => rfl
    | emptyObj => rfl
    | promptEvent p => rfl

/-- C7: the Router emits no output for every prompt strictly shorter than
the minimum-length threshold. -/
theorem router_skips_short_prompts :
    ∀ prompt : String, prompt.length < MIN_PROMPT_LENGTH →
      routerOutput prompt = none := by
  intro prompt h
  simp [routerOutput, classify, h]

/-- Witness for C7: a one-character prompt is below the threshold and
yields no output. -/
theorem router_skips_short_prompts_witness :
    ("a" : String).length < MIN_PROMPT_LENGTH ∧ routerOutput "a" = none :=
  ⟨by decide, router_skips_short_prompts "a" (by decide)⟩

/-- C8: the doctor's `main` returns 0 exactly when a project root is
found and every check passes, returns 1 otherwise, and returns no other
status. -/
theorem doctor_main_exit_status :
    ∀ (root : Option FsPath) (w : DoctorWorld),
      (doctorMain root w = 0 ↔ (root.isSome = true ∧ doctorAllOk w = true)) ∧
      (doctorMain root w = 0 ∨ doctorMain root w = 1) := by
  intro root w
  cases root <;> by_cases h : doctorAllOk w = true <;>
    simp [doctorMain, h]

/-- C9: `find_project_root` returns the nearest directory among the
resolved start and its ancestors that contains `CLAUDE.md` — the start
itself preferred, then successively higher ancestors — and `none` when no
such directory exists. -/
theorem find_project_root_nearest :
    ∀ (exists_ : FsPath → Bool) (start : FsPath),
      (∀ d : FsPath,
        find_project_root exists_ start = some d ↔
          exists_ (d ++ ["CLAUDE.md"]) = true ∧
          ∃ pre post, ancestorChain start = pre ++ d :: post ∧
            ∀ e ∈ pre, exists_ (e ++ ["CLAUDE.md"]) = false) ∧
      (find_project_root exists_ start = none ↔
        ∀ d ∈ ancestorChain start, exists_ (d ++ ["CLAUDE.md"]) = false) := by
  intro exists_ start
  constructor
  · intro d
    rw [find_project_root, List.find?_eq_some]
    simp [Bool.not_eq_true']
  · rw [find_project_root, List.find?_eq_none]
    simp [Bool.not_eq_true]

/-- Witness for C9: in a filesystem whose only file is `/a/CLAUDE.md`,
starting from `/a/b` finds `/a`. -/
theorem find_project_root_nearest_witness :
    find_project_root (fun l => l == ["a", "CLAUDE.md"]) ["a", "b"]
      = some ["a"] :=
  ((find_project_root_nearest (fun l => l == ["a", "CLAUDE.md"])
      ["a", "b"]).1 ["a"]).mpr
    ⟨by decide, [["a", "b"]], [[]], by decide, by decide⟩

/-- C10: `check_settings_json` passes when the optional file is absent;
when the file exists it returns true exactly when the contents parse as
JSON; a read error or malformed JSON yields false rather than an
exception. -/
theorem check_settings_json_spec :
    ∀ (parsesAsJson : String → Bool) (f : SettingsFile),
      (f = .absent → check_settings_json parsesAsJson f = true) ∧
      (f = .unreadable → check_settings_json parsesAsJson f = false) ∧
      (∀ s, f = .content s →
        (check_settings_json parsesAsJson f = true ↔
          parsesAsJson s = true)) := by
  intro p f
  cases f with
  | absent =>
    refine ⟨fun _ => rfl, fun h => ?_, fun s h => ?_⟩ <;> cases h
  | unreadable =>
    refine ⟨fun h => ?_, fun _ => rfl, fun s h => ?_⟩ <;> cases h
  | content c =>
    refine ⟨fun h => ?_, fun h => ?_, fun s h => ?_⟩ <;> cases h
    exact Iff.rfl

/-- Witness for C10: absent settings pass, an unreadable file fails, and
a readable file defers to the JSON parse result. -/
theorem check_settings_json_spec_witness :
    check_settings_json (fun _ => false) .absent = true ∧
    check_settings_json (fun _ => false) .unreadable = false ∧
    (check_settings_json (fun s => s == "null") (.content "null") = true ↔
      (fun s : String => s == "null") "null" = true) :=
  ⟨(check_settings_json_spec (fun _ => false) .absent).1 rfl,
   (check_settings_json_spec (fun _ => false) .unreadable).2.1 rfl,
   (check_settings_json_spec (fun s => s == "null") (.content "null")).2.2
     "null" rfl⟩

end Orchestra
